import Mathlib

set_option maxHeartbeats 1000000
set_option maxRecDepth 100000

/- Shallow embedding of the DSGS repository: the Task Context Capsule (TCC)
data model and builder (src/core/types/TCC.ts, src/core/specification/TccGenerator.ts),
the constraint generation pipeline (src/core/constraint/ConstraintGenerator.ts),
and the MCP protocol dispatch layer (src/integration/mcp/McpAdapter.ts,
src/integration/mcp/McpStdioServer.ts), together with theorems checking the
natural-language specification against this code.

Effectful collaborators (file loads, template directory reads, clock, process
uptime) are passed in explicitly; JavaScript exceptions are modelled with
`Except`; `JSON.stringify` and the byte size `new Blob([s]).size` are modelled
by `serializeTCC` and `utf8Length` below. -/

/-- The byte size of a string as `new Blob([s]).size` computes it: the number
of bytes of its UTF-8 encoding. -/
def utf8Length (s : String) : Nat :=
  (s.data.map Char.utf8Size).sum

/-- One lowercase hexadecimal digit, as `JSON.stringify` prints escapes. -/
def hexDigit (n : Nat) : String :=
  if n < 10 then String.singleton (Char.ofNat (48 + n))
  else String.singleton (Char.ofNat (87 + n))

/-- How `JSON.stringify` escapes one character inside a string literal:
quote and backslash get a backslash, the named control characters get their
short escapes, the remaining control characters get a `\u00..` escape, and
every other character is copied unchanged. -/
def escapeJsonChar (c : Char) : String :=
  if c = '"' then "\\\""
  else if c = '\\' then "\\\\"
  else if c = '\x08' then "\\b"
  else if c = '\x09' then "\\t"
  else if c = '\x0a' then "\\n"
  else if c = '\x0c' then "\\f"
  else if c = '\x0d' then "\\r"
  else if c.toNat < 32 then "\\u00" ++ hexDigit (c.toNat / 16) ++ hexDigit (c.toNat % 16)
  else String.singleton c

/-- `JSON.stringify` of a string value. -/
def quoteJson (s : String) : String :=
  "\"" ++ String.join (s.data.map escapeJsonChar) ++ "\""

/-- `JSON.stringify` of an array of strings. -/
def jsonStringArray (xs : List String) : String :=
  "[" ++ String.intercalate "," (xs.map quoteJson) ++ "]"

/-- `SystemState.loadLevel` values (src/core/types/TCC.ts). -/
inductive LoadLevel where
  | LOW
  | MED
  | HIGH
deriving DecidableEq, Repr

def LoadLevel.str : LoadLevel → String
  | LoadLevel.LOW => "LOW"
  | LoadLevel.MED => "MED"
  | LoadLevel.HIGH => "HIGH"

/-- `SystemState.environment` values (src/core/types/TCC.ts). -/
inductive DeploymentEnvironment where
  | DEVELOPMENT
  | STAGING
  | PRODUCTION
deriving DecidableEq, Repr

def DeploymentEnvironment.str : DeploymentEnvironment → String
  | DeploymentEnvironment.DEVELOPMENT => "DEVELOPMENT"
  | DeploymentEnvironment.STAGING => "STAGING"
  | DeploymentEnvironment.PRODUCTION => "PRODUCTION"

/-- `context.priority` values (src/core/types/TCC.ts). -/
inductive Priority where
  | LOW
  | MEDIUM
  | HIGH
  | CRITICAL
deriving DecidableEq, Repr

def Priority.str : Priority → String
  | Priority.LOW => "LOW"
  | Priority.MEDIUM => "MEDIUM"
  | Priority.HIGH => "HIGH"
  | Priority.CRITICAL => "CRITICAL"

/-- `SystemState.resourceAvailability` (src/core/types/TCC.ts). -/
structure ResourceAvailability where
  cpu : Nat
  memory : Nat
  network : Nat
deriving DecidableEq, Repr

/-- `SystemState` (src/core/types/TCC.ts). -/
structure SystemState where
  loadLevel : LoadLevel
  dependencies : List String
  resourceAvailability : ResourceAvailability
  environment : DeploymentEnvironment
deriving DecidableEq, Repr

/-- The `context` field of a TCC (src/core/types/TCC.ts). -/
structure TccContext where
  relevantConstraints : List String
  systemState : SystemState
  creationTime : String
  source : String
  priority : Priority
deriving DecidableEq, Repr

/-- `TaskContextCapsule` (src/core/types/TCC.ts). -/
structure TaskContextCapsule where
  taskId : String
  goal : String
  taskType : String
  context : TccContext
  size : Nat
  version : String
deriving DecidableEq, Repr

/-- `JSON.stringify(tcc)` over a TCC, with the key order of the object
literal built by `createTCC` (src/core/types/TCC.ts). -/
def serializeTCC (tcc : TaskContextCapsule) : String :=
  "\x7b\"taskId\":" ++ quoteJson tcc.taskId ++
  ",\"goal\":" ++ quoteJson tcc.goal ++
  ",\"taskType\":" ++ quoteJson tcc.taskType ++
  ",\"context\":\x7b\"relevantConstraints\":" ++ jsonStringArray tcc.context.relevantConstraints ++
  ",\"systemState\":\x7b\"loadLevel\":" ++ quoteJson tcc.context.systemState.loadLevel.str ++
  ",\"dependencies\":" ++ jsonStringArray tcc.context.systemState.dependencies ++
  ",\"resourceAvailability\":\x7b\"cpu\":" ++ toString tcc.context.systemState.resourceAvailability.cpu ++
  ",\"memory\":" ++ toString tcc.context.systemState.resourceAvailability.memory ++
  ",\"network\":" ++ toString tcc.context.systemState.resourceAvailability.network ++ "\x7d" ++
  ",\"environment\":" ++ quoteJson tcc.context.systemState.environment.str ++ "\x7d" ++
  ",\"creationTime\":" ++ quoteJson tcc.context.creationTime ++
  ",\"source\":" ++ quoteJson tcc.context.source ++
  ",\"priority\":" ++ quoteJson tcc.context.priority.str ++ "\x7d" ++
  ",\"size\":" ++ toString tcc.size ++
  ",\"version\":" ++ quoteJson tcc.version ++ "\x7d"

/-- `validateTCCSize` (src/core/types/TCC.ts lines 87-97): serializes the
given TCC, stores the byte length in its `size` field, and reports whether
that byte length is strictly below 10240.  The returned pair is the mutated
TCC together with the Boolean result. -/
def validateTCCSize (tcc : TaskContextCapsule) : TaskContextCapsule × Bool :=
  let byteSize := utf8Length (serializeTCC tcc)
  ({ tcc with size := byteSize }, decide (byteSize < 10240))

/-- `createTCC` (src/core/types/TCC.ts lines 106-137).  `now` stands for
`new Date().toISOString()`.  The Boolean returned by `validateTCCSize` is
discarded, exactly as in the source: the TCC is returned in every case,
only its `size` field having been recomputed. -/
def createTCC (taskId goal taskType : String) (now : String) : TaskContextCapsule :=
  let tcc : TaskContextCapsule := {
    taskId := taskId
    goal := goal
    taskType := taskType
    context := {
      relevantConstraints := []
      systemState := {
        loadLevel := LoadLevel.MED
        dependencies := []
        resourceAvailability := { cpu := 50, memory := 50, network := 50 }
        environment := DeploymentEnvironment.DEVELOPMENT }
      creationTime := now
      source := "user-request"
      priority := Priority.MEDIUM }
    size := 0
    version := "1.0" }
  (validateTCCSize tcc).1

/-- The part of a loaded global specification document that
`extractRelevantConstraints` reads: the optional `metadata.taskConstraints`
map (src/core/specification/TccGenerator.ts line 87). -/
structure GlobalSpecMetadata where
  taskConstraints : Option (List (String × List String))
deriving DecidableEq, Repr

/-- A loaded global specification document, reduced to the fields the TCC
generator inspects. -/
structure GlobalSpec where
  metadata : Option GlobalSpecMetadata
deriving DecidableEq, Repr

/-- `spec?.metadata?.taskConstraints?.[taskType]`: the optional-chain lookup
of task-specific constraints in the loaded specification. -/
def specTaskConstraints (spec : GlobalSpec) (taskType : String) : Option (List String) :=
  (spec.metadata.bind GlobalSpecMetadata.taskConstraints).bind
    (fun entries => entries.lookup taskType)

/-- `s.toUpperCase()` as the switch in `extractRelevantConstraints` applies
it: the per-character uppercase mapping (the task-type tags involved are
plain ASCII). -/
def jsToUpperCase (s : String) : String :=
  String.mk (s.data.map Char.toUpper)

def dedupFirstAux : List String → List String → List String
  | [], _ => []
  | x :: rest, seen =>
    if seen.contains x then dedupFirstAux rest seen
    else x :: dedupFirstAux rest (x :: seen)

/-- `[...new Set(xs)]`: duplicates removed, the first occurrence kept,
order otherwise preserved. -/
def dedupFirst (xs : List String) : List String :=
  dedupFirstAux xs []

/-- `extractRelevantConstraints` (src/core/specification/TccGenerator.ts
lines 57-97).  `loadResult` stands for the awaited
`loadSpecification('src/core/specification/bsl.schema.json')` call: when it
throws, the catch block merely logs a warning and the TCC is left unchanged
(its `relevantConstraints` stay as they were).  When it succeeds, the switch
on the uppercased task type picks the base list, any task-specific
constraints found in the specification metadata are appended, and the
deduplicated result is assigned. -/
def extractRelevantConstraints (loadResult : Except String GlobalSpec)
    (tcc : TaskContextCapsule) : TaskContextCapsule :=
  match loadResult with
  | Except.error _ => tcc
  | Except.ok spec =>
    let base : List String :=
      if jsToUpperCase tcc.taskType = "FINANCIAL" then ["SEC-002", "SEC-003", "PERF-002"]
      else if jsToUpperCase tcc.taskType = "AUTHENTICATION" then ["SEC-001", "SEC-002"]
      else if jsToUpperCase tcc.taskType = "API" then ["PERF-001", "PERF-002", "ARCH-002"]
      else if jsToUpperCase tcc.taskType = "DATABASE" then ["PERF-001", "ARCH-002"]
      else ["SEC-001"]
    let merged : List String :=
      match specTaskConstraints spec tcc.taskType with
      | some extra => base ++ extra
      | none => base
    { tcc with context.relevantConstraints := dedupFirst merged }

/-- The first steps of `generateTCC` (TccGenerator.ts lines 29-34): the
`createTCC` call followed by the overwrite of `context.source` and
`context.priority` with the provided values. -/
def generateTCCBase (taskId goal taskType source : String) (priority : Priority)
    (now : String) : TaskContextCapsule :=
  { createTCC taskId goal taskType now with
    context.source := source, context.priority := priority }

/-- `generateTCC` (src/core/specification/TccGenerator.ts lines 21-51):
creates the base TCC, overwrites `context.source` and `context.priority`,
extracts the relevant constraints, then validates the size; a failed size
check throws, and the outer catch wraps the message with
`Failed to generate TCC: `. -/
def generateTCC (loadResult : Except String GlobalSpec)
    (taskId goal taskType source : String) (priority : Priority) (now : String) :
    Except String TaskContextCapsule :=
  let enriched := extractRelevantConstraints loadResult
    (generateTCCBase taskId goal taskType source priority now)
  let checked := validateTCCSize enriched
  if checked.2 then Except.ok checked.1
  else Except.error ("Failed to generate TCC: TCC size exceeds limit: " ++
    toString checked.1.size ++ " bytes")

namespace ConstraintGenerator

/-- Constraint categories (src/core/constraint/ConstraintGenerator.ts). -/
inductive Category where
  | SECURITY
  | PERFORMANCE
  | ARCHITECTURE
  | OTHER
deriving DecidableEq, Repr

/-- Constraint severities (src/core/constraint/ConstraintGenerator.ts). -/
inductive Severity where
  | WARNING
  | ERROR
deriving DecidableEq, Repr

/-- `ConstraintTemplate` (src/core/constraint/ConstraintGenerator.ts). -/
structure ConstraintTemplate where
  id : String
  name : String
  category : Category
  description : String
  rule : String
  applicableTasks : List String
  severity : Severity
deriving DecidableEq, Repr

/-- `Constraint` (src/core/constraint/ConstraintGenerator.ts): same shape as
a template. -/
structure Constraint where
  id : String
  name : String
  category : Category
  description : String
  rule : String
  applicableTasks : List String
  severity : Severity
deriving DecidableEq, Repr

/-- `name.endsWith('.json')`: the suffix test, on the character list. -/
def jsEndsWith (s suffix : String) : Bool :=
  suffix.data.isSuffixOf s.data

/-- One candidate record of a template directory: its file name and the
outcome of reading and `JSON.parse`-ing it (a throwing read or parse is the
`error` case). -/
structure TemplateFile where
  name : String
  parse : Except Unit ConstraintTemplate

/-- One template directory as `fs.readdir` sees it: `error` when the
directory cannot be listed (missing or inaccessible). -/
abbrev TemplateDir := Except Unit (List TemplateFile)

/-- The fixed set of category partitions `matchTemplates` scans, in scan
order: templates/security, templates/performance, templates/architecture. -/
structure TemplateStore where
  security : TemplateDir
  performance : TemplateDir
  architecture : TemplateDir

/-- The per-directory file loop of `matchTemplates`
(src/core/constraint/ConstraintGenerator.ts lines 227-239): files are
visited in directory order; a file whose name does not end in `.json` is
skipped; a failing read or parse throws, which the per-directory catch turns
into `continue` — the templates pushed so far are kept and the rest of this
directory is abandoned; an applicable parsed template is pushed. -/
def scanFiles (taskType : String) (acc : List ConstraintTemplate) :
    List TemplateFile → List ConstraintTemplate
  | [] => acc
  | f :: rest =>
    if jsEndsWith f.name ".json" then
      match f.parse with
      | Except.error _ => acc
      | Except.ok template =>
        if template.applicableTasks.contains taskType ||
            template.applicableTasks.contains "ALL" then
          scanFiles taskType (acc ++ [template]) rest
        else
          scanFiles taskType acc rest
    else
      scanFiles taskType acc rest

/-- One iteration of the directory loop of `matchTemplates`: a directory
whose `readdir` throws is skipped silently (the catch does `continue`),
leaving the accumulated templates untouched. -/
def scanDir (taskType : String) (acc : List ConstraintTemplate) :
    TemplateDir → List ConstraintTemplate
  | Except.error _ => acc
  | Except.ok files => scanFiles taskType acc files

/-- `matchTemplates` (src/core/constraint/ConstraintGenerator.ts lines
202-253): scans the three category partitions in their fixed order,
accumulating applicable templates.  Nothing in the loop can escape the
per-directory catch, so the outer catch never fires and the function always
returns the accumulated list. -/
def matchTemplates (store : TemplateStore) (taskType : String) :
    List ConstraintTemplate :=
  scanDir taskType
    (scanDir taskType
      (scanDir taskType [] store.security)
      store.performance)
    store.architecture

/-- `generateConstraints` (src/core/constraint/ConstraintGenerator.ts lines
159-195): matched templates are copied field by field into constraints, one
constraint is synthesized per entry of `tcc.context.relevantConstraints`,
and the two lists are concatenated.  `matchTemplates` cannot throw in the
model, so the catch that would wrap a failure is unreachable. -/
def generateConstraints (store : TemplateStore) (tcc : TaskContextCapsule) :
    List Constraint :=
  let templates := matchTemplates store tcc.taskType
  let constraints : List Constraint := templates.map (fun template => {
    id := template.id
    name := template.name
    category := template.category
    description := template.description
    rule := template.rule
    applicableTasks := template.applicableTasks
    severity := template.severity })
  let contextConstraints : List Constraint :=
    tcc.context.relevantConstraints.map (fun id => {
      id := id
      name := id
      category := Category.OTHER
      description := "Constraint from task context"
      rule := "context." ++ id
      applicableTasks := [tcc.taskType]
      severity := Severity.WARNING })
  constraints ++ contextConstraints

/-- Spec-side description (§4.1): a template applies when `applicableTasks`
contains the task type (case-sensitive) or the wildcard `ALL`. -/
def applicableTo (taskType : String) (t : ConstraintTemplate) : Bool :=
  t.applicableTasks.contains taskType || t.applicableTasks.contains "ALL"

/-- Spec-side description (§4.1) of what one partition contributes: nothing
when the partition is unreadable, otherwise the applicable templates among
its parseable `.json` records, in store iteration order. -/
def dirTemplatesSpec (taskType : String) : TemplateDir → List ConstraintTemplate
  | Except.error _ => []
  | Except.ok files =>
    ((files.filter (fun f => jsEndsWith f.name ".json")).filterMap
      (fun f => f.parse.toOption)).filter (applicableTo taskType)

/-- Every `.json` record of the partition parses (vacuously true for an
unreadable partition). -/
def allJsonParse : TemplateDir → Bool
  | Except.error _ => true
  | Except.ok files => files.all (fun f => !jsEndsWith f.name ".json" || f.parse.isOk)

/-- Spec-side description (claim C8): a template copied field for field into
a constraint. -/
def templateConstraintSpec (t : ConstraintTemplate) : Constraint := {
  id := t.id
  name := t.name
  category := t.category
  description := t.description
  rule := t.rule
  applicableTasks := t.applicableTasks
  severity := t.severity }

/-- Spec-side description (§3, claim C8): the constraint synthesized from
one entry of `context.relevantConstraints` — category forced to OTHER,
severity forced to WARNING, rule a literal reference string. -/
def contextConstraintSpec (taskType entry : String) : Constraint := {
  id := entry
  name := entry
  category := Category.OTHER
  description := "Constraint from task context"
  rule := "context." ++ entry
  applicableTasks := [taskType]
  severity := Severity.WARNING }

end ConstraintGenerator

/-- A request id: `string | number` (both McpRequest interfaces). -/
inductive McpId where
  | str (s : String)
  | num (n : Int)
deriving DecidableEq, Repr

/-- The fields the `checkConstraints` handler destructures from `params`;
each may be absent. -/
structure McpParams where
  tccPath : Option String
  specPath : Option String
deriving DecidableEq, Repr

/-- The MCP request envelope: `params` is `none` when the request carries no
params object at all. -/
structure McpRequest where
  method : String
  params : Option McpParams
  id : McpId
deriving DecidableEq, Repr

/-- `ConstraintViolation` (both MCP server files); the untyped `context: any`
field is not inspected by any code path and is elided.  The violation list
built by the handlers is always empty, so this structure is never
constructed. -/
structure ConstraintViolation where
  id : String
  severity : String
  message : String
  suggestions : List String
  timestamp : String
deriving DecidableEq, Repr

/-- The JavaScript value stored in the `constraints` field of a
`checkConstraints` result: either an actual array of constraints, or a
pending `Promise` — the value of an `async` call made without `await`.
`JSON.stringify` renders a Promise as an empty object, never as the list it
will resolve to. -/
inductive ConstraintsField where
  | list (cs : List ConstraintGenerator.Constraint)
  | promise (p : Except String (List ConstraintGenerator.Constraint))
deriving Repr

def ConstraintsField.isArray : ConstraintsField → Bool
  | ConstraintsField.list _ => true
  | ConstraintsField.promise _ => false

/-- The `result` object of a successful response, one shape per method. -/
inductive McpResult where
  | check (constraints : ConstraintsField) (violations : List ConstraintViolation)
      (timestamp : String)
  | systemStatus (status version : String) (uptime : Nat) (timestamp : String)
  | evolutionStage (currentStage description : String) (capabilities : List String)
      (timestamp : String)
deriving Repr

/-- The `error` object of a response envelope. -/
structure McpError where
  code : Int
  message : String
deriving DecidableEq, Repr

/-- The MCP response envelope: `result` or `error` (both optional fields of
the McpResponse interfaces). -/
structure McpResponse where
  result : Option McpResult := none
  error : Option McpError := none
  id : McpId
deriving Repr

/-- The effectful collaborators of the MCP handlers: `loadSpecification`
(awaited, so a throw is observable), the real async `generateConstraints`
(its eventual outcome), `process.uptime()` and `new Date().toISOString()`. -/
structure McpEnv where
  loadSpecification : String → Except String TaskContextCapsule
  generateConstraints : TaskContextCapsule → Except String (List ConstraintGenerator.Constraint)
  uptime : Nat
  now : String

/-- JavaScript truthiness of the destructured path values: `!x` holds for an
absent field and for the empty string. -/
def falsyPath : Option String → Bool
  | none => true
  | some s => s = ""

/-- The message of the TypeError thrown by destructuring `request.params`
when `params` is absent. -/
def destructureErrorMessage : String :=
  "Cannot destructure property tccPath of request.params as it is undefined"

namespace McpAdapter

/-- `handleCheckConstraints` (src/integration/mcp/McpAdapter.ts lines
183-262).  With `params` absent the opening destructuring throws, and the
handler's own catch maps the exception to `-32603` with the request id.
Otherwise: missing/empty paths give `-32602`; a throwing specification load
gives `-32001`; a throwing TCC load gives `-32002`; then the handler calls
the async `generateConstraints` WITHOUT `await` (line 229), so the call
cannot throw here — the catch mapping a generation failure to `-32003` is
unreachable — and the pending Promise itself is placed in
`result.constraints` of the success envelope. -/
def handleCheckConstraints (env : McpEnv) (request : McpRequest) : McpResponse :=
  match request.params with
  | none =>
    { error := some { code := -32603, message := destructureErrorMessage }
      id := request.id }
  | some params =>
    if falsyPath params.tccPath || falsyPath params.specPath then
      { error := some
          { code := -32602
            message := "Missing required parameters: tccPath and specPath" }
        id := request.id }
    else
      match env.loadSpecification (params.specPath.getD "") with
      | Except.error e =>
        { error := some
            { code := -32001
              message := "Failed to load specification: " ++ e }
          id := request.id }
      | Except.ok _specification =>
        match env.loadSpecification (params.tccPath.getD "") with
        | Except.error e =>
          { error := some
              { code := -32002
                message := "Failed to load task context capsule: " ++ e }
            id := request.id }
        | Except.ok tcc =>
          { result := some (McpResult.check
              (ConstraintsField.promise (env.generateConstraints tcc))
              [] env.now)
            id := request.id }

/-- `handleGetSystemStatus` (McpAdapter.ts lines 269-279). -/
def handleGetSystemStatus (env : McpEnv) (request : McpRequest) : McpResponse :=
  { result := some (McpResult.systemStatus "running" "1.0.0" env.uptime env.now)
    id := request.id }

/-- `handleGetEvolutionStage` (McpAdapter.ts lines 286-303). -/
def handleGetEvolutionStage (env : McpEnv) (request : McpRequest) : McpResponse :=
  { result := some (McpResult.evolutionStage "MVP"
      "Minimum Viable Product - Core functionality implemented"
      ["Basic constraint generation", "Task Context Capsule support",
        "MCP integration", "CLI interface"]
      env.now)
    id := request.id }

/-- `handleMcpRequest` (McpAdapter.ts lines 149-176): the method switch.  No
handler throws in the model, so the surrounding catch mapping an exception
to `-32603` is unreachable here. -/
def handleMcpRequest (env : McpEnv) (request : McpRequest) : McpResponse :=
  if request.method = "checkConstraints" then handleCheckConstraints env request
  else if request.method = "getSystemStatus" then handleGetSystemStatus env request
  else if request.method = "getEvolutionStage" then handleGetEvolutionStage env request
  else
    { error := some { code := -32601, message := "Method not found" }
      id := request.id }

end McpAdapter

namespace McpStdioServer

/-- `handleCheckConstraints` (src/integration/mcp/McpStdioServer.ts lines
167-246): identical logic to the connection-oriented transport, including
the un-awaited `generateConstraints` call at line 213. -/
def handleCheckConstraints (env : McpEnv) (request : McpRequest) : McpResponse :=
  match request.params with
  | none =>
    { error := some { code := -32603, message := destructureErrorMessage }
      id := request.id }
  | some params =>
    if falsyPath params.tccPath || falsyPath params.specPath then
      { error := some
          { code := -32602
            message := "Missing required parameters: tccPath and specPath" }
        id := request.id }
    else
      match env.loadSpecification (params.specPath.getD "") with
      | Except.error e =>
        { error := some
            { code := -32001
              message := "Failed to load specification: " ++ e }
          id := request.id }
      | Except.ok _specification =>
        match env.loadSpecification (params.tccPath.getD "") with
        | Except.error e =>
          { error := some
              { code := -32002
                message := "Failed to load task context capsule: " ++ e }
            id := request.id }
        | Except.ok tcc =>
          { result := some (McpResult.check
              (ConstraintsField.promise (env.generateConstraints tcc))
              [] env.now)
            id := request.id }

/-- `handleGetSystemStatus` (McpStdioServer.ts lines 253-263). -/
def handleGetSystemStatus (env : McpEnv) (request : McpRequest) : McpResponse :=
  { result := some (McpResult.systemStatus "running" "1.0.0" env.uptime env.now)
    id := request.id }

/-- `handleGetEvolutionStage` (McpStdioServer.ts lines 270-287). -/
def handleGetEvolutionStage (env : McpEnv) (request : McpRequest) : McpResponse :=
  { result := some (McpResult.evolutionStage "MVP"
      "Minimum Viable Product - Core functionality implemented"
      ["Basic constraint generation", "Task Context Capsule support",
        "MCP integration", "CLI interface"]
      env.now)
    id := request.id }

/-- `handleMcpRequest` (McpStdioServer.ts lines 125-160): the method switch
computing the response the transport then writes as one JSON line. -/
def handleMcpRequest (env : McpEnv) (request : McpRequest) : McpResponse :=
  if request.method = "checkConstraints" then handleCheckConstraints env request
  else if request.method = "getSystemStatus" then handleGetSystemStatus env request
  else if request.method = "getEvolutionStage" then handleGetEvolutionStage env request
  else
    { error := some { code := -32601, message := "Method not found" }
      id := request.id }

end McpStdioServer

/-- A fixed ISO-8601 timestamp standing for one `new Date().toISOString()`
observation. -/
def exNow : String := "2026-10-12T00:00:00.000Z"

/-- A goal string of 20000 copies of the letter `a`: long enough that any
TCC carrying it serializes to well over 10240 bytes. -/
def bigGoal : String := String.mk (List.replicate 20000 'a')

/-- The record `createTCC "task-big" bigGoal "API" exNow` builds before
computing its size. -/
def bigTccBase : TaskContextCapsule := {
  taskId := "task-big"
  goal := bigGoal
  taskType := "API"
  context := {
    relevantConstraints := []
    systemState := {
      loadLevel := LoadLevel.MED
      dependencies := []
      resourceAvailability := { cpu := 50, memory := 50, network := 50 }
      environment := DeploymentEnvironment.DEVELOPMENT }
    creationTime := exNow
    source := "user-request"
    priority := Priority.MEDIUM }
  size := 0
  version := "1.0" }

/-- The TCC `generateTCC` returns at a small input when the global
specification load fails (so `relevantConstraints` stays empty). -/
def tccSmall : TaskContextCapsule := {
  taskId := "t1"
  goal := "g1"
  taskType := "misc"
  context := {
    relevantConstraints := []
    systemState := {
      loadLevel := LoadLevel.MED
      dependencies := []
      resourceAvailability := { cpu := 50, memory := 50, network := 50 }
      environment := DeploymentEnvironment.DEVELOPMENT }
    creationTime := exNow
    source := "user-request"
    priority := Priority.MEDIUM }
  size := 334
  version := "1.0" }

/-- A loaded global specification with no metadata at all. -/
def specNoMeta : GlobalSpec := { metadata := none }

/-- The TCC `generateTCC` returns at a small unrecognized task type when the
global specification loads and carries no task-specific constraints. -/
def tccDefault : TaskContextCapsule := {
  taskId := "t1"
  goal := "g1"
  taskType := "misc"
  context := {
    relevantConstraints := ["SEC-001"]
    systemState := {
      loadLevel := LoadLevel.MED
      dependencies := []
      resourceAvailability := { cpu := 50, memory := 50, network := 50 }
      environment := DeploymentEnvironment.DEVELOPMENT }
    creationTime := exNow
    source := "user-request"
    priority := Priority.MEDIUM }
  size := 343
  version := "1.0" }

/-- A concrete loaded document for the MCP scenarios. -/
def tccDoc : TaskContextCapsule := createTCC "T001" "ProcessPayment" "financial" exNow

def constraintA : ConstraintGenerator.Constraint := {
  id := "security-001"
  name := "Input Validation"
  category := ConstraintGenerator.Category.SECURITY
  description := "All inputs must be validated"
  rule := "validate(input)"
  applicableTasks := ["ALL"]
  severity := ConstraintGenerator.Severity.ERROR }

def constraintB : ConstraintGenerator.Constraint := {
  id := "performance-001"
  name := "Response Time"
  category := ConstraintGenerator.Category.PERFORMANCE
  description := "Responses within 500ms"
  rule := "responseTime < 500"
  applicableTasks := ["API"]
  severity := ConstraintGenerator.Severity.WARNING }

/-- Environment of the success scenario: both documents loadable, constraint
generation eventually resolving to two constraints. -/
def envTwoConstraints : McpEnv := {
  loadSpecification := fun _ => Except.ok tccDoc
  generateConstraints := fun _ => Except.ok [constraintA, constraintB]
  uptime := 5
  now := exNow }

/-- Environment where every document load throws. -/
def envSpecLoadFails : McpEnv := {
  loadSpecification := fun _ => Except.error "ENOENT specfile"
  generateConstraints := fun _ => Except.ok []
  uptime := 5
  now := exNow }

/-- Environment where the specification loads but the TCC load throws. -/
def envTccLoadFails : McpEnv := {
  loadSpecification := fun path =>
    if path = "s.json" then Except.ok tccDoc else Except.error "ENOENT tccfile"
  generateConstraints := fun _ => Except.ok []
  uptime := 5
  now := exNow }

/-- Environment where constraint generation eventually rejects. -/
def envGenRejects : McpEnv := {
  loadSpecification := fun _ => Except.ok tccDoc
  generateConstraints := fun _ => Except.error "boom"
  uptime := 5
  now := exNow }

/-- The spec §8 scenario request: checkConstraints with both paths, id 1. -/
def reqCheck1 : McpRequest := {
  method := "checkConstraints"
  params := some { tccPath := some "t.json", specPath := some "s.json" }
  id := McpId.num 1 }

/-- A checkConstraints request whose params lack `specPath`. -/
def reqNoSpecPath : McpRequest := {
  method := "checkConstraints"
  params := some { tccPath := some "t.json", specPath := none }
  id := McpId.num 2 }

/-- A request with an unrecognized method name. -/
def reqUnknown : McpRequest := {
  method := "unknownMethod"
  params := none
  id := McpId.num 5 }

/-- A checkConstraints request with no params object at all. -/
def reqNoParams : McpRequest := {
  method := "checkConstraints"
  params := none
  id := McpId.num 9 }

def tplSec : ConstraintGenerator.ConstraintTemplate := {
  id := "SEC-001"
  name := "Input Validation"
  category := ConstraintGenerator.Category.SECURITY
  description := "All inputs must be validated"
  rule := "validate(input)"
  applicableTasks := ["ALL"]
  severity := ConstraintGenerator.Severity.ERROR }

def tplArch : ConstraintGenerator.ConstraintTemplate := {
  id := "ARCH-002"
  name := "Layering"
  category := ConstraintGenerator.Category.ARCHITECTURE
  description := "Respect layer boundaries"
  rule := "layers(acyclic)"
  applicableTasks := ["API", "DATABASE"]
  severity := ConstraintGenerator.Severity.WARNING }

/-- A concrete template store: a readable security partition holding one
parseable template and one non-json file, an unreadable performance
partition, and a readable architecture partition. -/
def storeEx : ConstraintGenerator.TemplateStore := {
  security := Except.ok [
    { name := "sec-001.json", parse := Except.ok tplSec },
    { name := "notes.txt", parse := Except.error () }]
  performance := Except.error ()
  architecture := Except.ok [{ name := "arch-002.json", parse := Except.ok tplArch }] }

theorem utf8Length_append (a b : String) :
    utf8Length (a ++ b) = utf8Length a + utf8Length b := by
  simp [utf8Length]

theorem utf8Length_empty : utf8Length "" = 0 := rfl

theorem utf8Length_foldl (l : List String) (acc : String) :
    utf8Length (l.foldl (fun r s => r ++ s) acc) = utf8Length acc + (l.map utf8Length).sum := by
  induction l generalizing acc with
  | nil => simp
  | cons x xs ih => simp [List.foldl_cons, ih, utf8Length_append]; omega

theorem utf8Length_join (l : List String) :
    utf8Length (String.join l) = (l.map utf8Length).sum := by
  simp [String.join, utf8Length_foldl, utf8Length_empty]

theorem escapeJsonChar_a : escapeJsonChar 'a' = "a" := rfl

/-- The serialized form of `bigGoal` as a JSON string value is 20002 bytes. -/
theorem utf8Length_quote_bigGoal : utf8Length (quoteJson bigGoal) = 20002 := by
  have hdata : bigGoal.data = List.replicate 20000 'a' := rfl
  rw [quoteJson, utf8Length_append, utf8Length_append, utf8Length_join, hdata,
    List.map_replicate, escapeJsonChar_a, List.map_replicate]
  rw [List.sum_replicate, smul_eq_mul]
  rfl

/-- The serialization of a TCC is at least as long as its quoted goal. -/
theorem quote_goal_le_serialize (tcc : TaskContextCapsule) :
    utf8Length (quoteJson tcc.goal) ≤ utf8Length (serializeTCC tcc) := by
  simp only [serializeTCC, utf8Length_append]
  omega

theorem validateTCCSize_fst (tcc : TaskContextCapsule) :
    (validateTCCSize tcc).1.size = utf8Length (serializeTCC tcc) := by
  simp [validateTCCSize]

theorem validateTCCSize_snd (tcc : TaskContextCapsule) :
    (validateTCCSize tcc).2 = true ↔ utf8Length (serializeTCC tcc) < 10240 := by
  simp [validateTCCSize]

theorem validateTCCSize_context (tcc : TaskContextCapsule) :
    (validateTCCSize tcc).1.context = tcc.context := by
  simp [validateTCCSize]

/-- The size `createTCC` stores is the byte length of the serialization of
the record it builds (whose `size` field is still 0 when serialized). -/
theorem createTCC_size_eq (taskId goal taskType now : String) :
    (createTCC taskId goal taskType now).size =
      utf8Length (serializeTCC {
        taskId := taskId
        goal := goal
        taskType := taskType
        context := {
          relevantConstraints := []
          systemState := {
            loadLevel := LoadLevel.MED
            dependencies := []
            resourceAvailability := { cpu := 50, memory := 50, network := 50 }
            environment := DeploymentEnvironment.DEVELOPMENT }
          creationTime := now
          source := "user-request"
          priority := Priority.MEDIUM }
        size := 0
        version := "1.0" }) := by
  simp [createTCC, validateTCCSize]

/-- C4: a call of `validateTCCSize` leaves the TCC's `size` field equal to
the byte length of the serialized form of the TCC it was given, and returns
true exactly when that byte length is strictly below 10240. -/
theorem validateTCCSize_spec (tcc : TaskContextCapsule) :
    (validateTCCSize tcc).1.size = utf8Length (serializeTCC tcc) ∧
    ((validateTCCSize tcc).2 = true ↔ utf8Length (serializeTCC tcc) < 10240) :=
  ⟨validateTCCSize_fst tcc, validateTCCSize_snd tcc⟩

/-- C2 counterexample: `createTCC` does not fail on a TCC whose serialized
form is 10240 bytes or more — at this concrete input it returns a TCC whose
recorded size is at least 10240 bytes (in fact over 20000). -/
theorem createTCC_returns_oversized_tcc :
    10240 ≤ (createTCC "task-big" bigGoal "API" exNow).size := by
  have h2 : utf8Length (quoteJson bigGoal) ≤ utf8Length (serializeTCC bigTccBase) :=
    quote_goal_le_serialize bigTccBase
  have h3 : (createTCC "task-big" bigGoal "API" exNow).size =
      utf8Length (serializeTCC bigTccBase) :=
    createTCC_size_eq "task-big" bigGoal "API" exNow
  have h4 := utf8Length_quote_bigGoal
  rw [h3]
  omega

/-- C2 (amended): every TCC that `generateTCC` returns has size strictly
below 10240 bytes — `generateTCC`, unlike `createTCC`, throws when the size
check fails. -/
theorem generateTCC_size_invariant (loadResult : Except String GlobalSpec)
    (taskId goal taskType source : String) (priority : Priority) (now : String)
    (tcc : TaskContextCapsule)
    (h : generateTCC loadResult taskId goal taskType source priority now = Except.ok tcc) :
    tcc.size < 10240 := by
  simp only [generateTCC] at h
  split at h
  case isTrue hcond =>
    injection h with h
    subst h
    rw [validateTCCSize_fst]
    exact (validateTCCSize_snd _).mp hcond
  case isFalse hcond =>
    exact absurd h (by simp)

theorem generateTCC_size_invariant_witness : tccSmall.size < 10240 :=
  generateTCC_size_invariant (Except.error "e") "t1" "g1" "misc" "user-request"
    Priority.MEDIUM exNow tccSmall (by rfl)

theorem createTCC_taskType (taskId goal taskType now : String) :
    (createTCC taskId goal taskType now).taskType = taskType := by
  simp [createTCC, validateTCCSize]

theorem generateTCCBase_taskType (taskId goal taskType source : String)
    (priority : Priority) (now : String) :
    (generateTCCBase taskId goal taskType source priority now).taskType = taskType := by
  rw [show (generateTCCBase taskId goal taskType source priority now).taskType
    = (createTCC taskId goal taskType now).taskType from rfl, createTCC_taskType]

/-- A successful `generateTCC` returns exactly the size-updated enrichment
of the base TCC it builds. -/
theorem generateTCC_ok_eq (loadResult : Except String GlobalSpec)
    (taskId goal taskType source : String) (priority : Priority) (now : String)
    (tcc : TaskContextCapsule)
    (h : generateTCC loadResult taskId goal taskType source priority now = Except.ok tcc) :
    tcc = (validateTCCSize (extractRelevantConstraints loadResult
      (generateTCCBase taskId goal taskType source priority now))).1 := by
  simp only [generateTCC] at h
  split at h
  case isTrue hcond =>
    exact (Except.ok.inj h).symm
  case isFalse hcond =>
    exact Except.noConfusion h

/-- When the global specification loads and holds no task-specific entry,
an unrecognized task type gets exactly the default constraint set. -/
theorem extract_ok_default (spec : GlobalSpec) (t : TaskContextCapsule)
    (hF : jsToUpperCase t.taskType ≠ "FINANCIAL")
    (hA : jsToUpperCase t.taskType ≠ "AUTHENTICATION")
    (hP : jsToUpperCase t.taskType ≠ "API")
    (hD : jsToUpperCase t.taskType ≠ "DATABASE")
    (hMeta : specTaskConstraints spec t.taskType = none) :
    (extractRelevantConstraints (Except.ok spec) t).context.relevantConstraints = ["SEC-001"] := by
  simp [extractRelevantConstraints, hF, hA, hP, hD, hMeta, dedupFirst, dedupFirstAux]

/-- C3 counterexample: when the global specification load fails,
`generateTCC` on the unrecognized task type "misc" returns a TCC whose
`context.relevantConstraints` is the empty list, not the singleton
`["SEC-001"]` the claim states. -/
theorem generateTCC_unrecognized_type_cex :
    generateTCC (Except.error "e") "t1" "g1" "misc" "user-request" Priority.MEDIUM exNow =
      Except.ok tccSmall ∧
    tccSmall.context.relevantConstraints = [] ∧
    decide (tccSmall.context.relevantConstraints = ["SEC-001"]) = false :=
  ⟨by rfl, rfl, by rfl⟩

/-- C3 (amended): for every task type whose uppercased form is none of
FINANCIAL, AUTHENTICATION, API or DATABASE, `generateTCC` assigns exactly
the singleton `["SEC-001"]` as `context.relevantConstraints` — provided the
global specification load succeeds and carries no task-specific constraints
for that task type (on a failed load the list instead stays empty). -/
theorem generateTCC_default_constraint_set (spec : GlobalSpec)
    (taskId goal taskType source : String) (priority : Priority) (now : String)
    (tcc : TaskContextCapsule)
    (hF : jsToUpperCase taskType ≠ "FINANCIAL")
    (hA : jsToUpperCase taskType ≠ "AUTHENTICATION")
    (hP : jsToUpperCase taskType ≠ "API")
    (hD : jsToUpperCase taskType ≠ "DATABASE")
    (hMeta : specTaskConstraints spec taskType = none)
    (h : generateTCC (Except.ok spec) taskId goal taskType source priority now = Except.ok tcc) :
    tcc.context.relevantConstraints = ["SEC-001"] := by
  have hbt := generateTCCBase_taskType taskId goal taskType source priority now
  rw [generateTCC_ok_eq (Except.ok spec) taskId goal taskType source priority now tcc h,
    validateTCCSize_context]
  exact extract_ok_default spec _ (hbt ▸ hF) (hbt ▸ hA) (hbt ▸ hP) (hbt ▸ hD) (hbt ▸ hMeta)

theorem generateTCC_default_constraint_set_witness :
    tccDefault.context.relevantConstraints = ["SEC-001"] :=
  generateTCC_default_constraint_set specNoMeta "t1" "g1" "misc" "user-request"
    Priority.MEDIUM exNow tccDefault (by decide) (by decide) (by decide) (by decide)
    rfl (by rfl)

/-- C6: dispatching a request whose method is none of the three recognized
names yields error code -32601 with the original request id, on both
transports. -/
theorem dispatch_unknown_method (env : McpEnv) (request : McpRequest)
    (h1 : request.method ≠ "checkConstraints")
    (h2 : request.method ≠ "getSystemStatus")
    (h3 : request.method ≠ "getEvolutionStage") :
    McpAdapter.handleMcpRequest env request =
      { error := some { code := -32601, message := "Method not found" }
        id := request.id } ∧
    McpStdioServer.handleMcpRequest env request =
      { error := some { code := -32601, message := "Method not found" }
        id := request.id } := by
  refine ⟨?_, ?_⟩ <;>
    simp [McpAdapter.handleMcpRequest, McpStdioServer.handleMcpRequest, h1, h2, h3]

theorem dispatch_unknown_method_witness :
    McpAdapter.handleMcpRequest envSpecLoadFails reqUnknown =
      { error := some { code := -32601, message := "Method not found" }
        id := McpId.num 5 } ∧
    McpStdioServer.handleMcpRequest envSpecLoadFails reqUnknown =
      { error := some { code := -32601, message := "Method not found" }
        id := McpId.num 5 } :=
  dispatch_unknown_method envSpecLoadFails reqUnknown (by decide) (by decide) (by decide)

/-- C7: a checkConstraints request whose params lack `specPath` (or lack
`tccPath`) yields error code -32602 with the message
"Missing required parameters: tccPath and specPath" (which contains the
text "Missing required parameters") and the original id, on both
transports. -/
theorem dispatch_missing_params (env : McpEnv) (request : McpRequest) (p : McpParams)
    (hm : request.method = "checkConstraints")
    (hp : request.params = some p)
    (hmiss : p.specPath = none ∨ p.tccPath = none) :
    McpAdapter.handleMcpRequest env request =
      { error := some
          { code := -32602
            message := "Missing required parameters: tccPath and specPath" }
        id := request.id } ∧
    McpStdioServer.handleMcpRequest env request =
      { error := some
          { code := -32602
            message := "Missing required parameters: tccPath and specPath" }
        id := request.id } := by
  have hf : (falsyPath p.tccPath || falsyPath p.specPath) = true := by
    rcases hmiss with h | h <;> simp [falsyPath, h]
  refine ⟨?_, ?_⟩ <;>
    simp [McpAdapter.handleMcpRequest, McpStdioServer.handleMcpRequest,
      McpAdapter.handleCheckConstraints, McpStdioServer.handleCheckConstraints,
      hm, hp, hf]

theorem dispatch_missing_params_witness :
    McpAdapter.handleMcpRequest envSpecLoadFails reqNoSpecPath =
      { error := some
          { code := -32602
            message := "Missing required parameters: tccPath and specPath" }
        id := McpId.num 2 } ∧
    McpStdioServer.handleMcpRequest envSpecLoadFails reqNoSpecPath =
      { error := some
          { code := -32602
            message := "Missing required parameters: tccPath and specPath" }
        id := McpId.num 2 } :=
  dispatch_missing_params envSpecLoadFails reqNoSpecPath
    { tccPath := some "t.json", specPath := none } rfl rfl (Or.inl rfl)

/-- C10: a checkConstraints request whose params object is entirely absent
yields error code -32603 (destructuring the missing params throws before
the -32602 parameter check can run) with the original id, on both
transports. -/
theorem dispatch_absent_params (env : McpEnv) (request : McpRequest)
    (hm : request.method = "checkConstraints")
    (hp : request.params = none) :
    McpAdapter.handleMcpRequest env request =
      { error := some { code := -32603, message := destructureErrorMessage }
        id := request.id } ∧
    McpStdioServer.handleMcpRequest env request =
      { error := some { code := -32603, message := destructureErrorMessage }
        id := request.id } := by
  refine ⟨?_, ?_⟩ <;>
    simp [McpAdapter.handleMcpRequest, McpStdioServer.handleMcpRequest,
      McpAdapter.handleCheckConstraints, McpStdioServer.handleCheckConstraints,
      hm, hp]

theorem dispatch_absent_params_witness :
    McpAdapter.handleMcpRequest envSpecLoadFails reqNoParams =
      { error := some { code := -32603, message := destructureErrorMessage }
        id := McpId.num 9 } ∧
    McpStdioServer.handleMcpRequest envSpecLoadFails reqNoParams =
      { error := some { code := -32603, message := destructureErrorMessage }
        id := McpId.num 9 } :=
  dispatch_absent_params envSpecLoadFails reqNoParams rfl rfl

/-- C1: at the spec §8 scenario input (both documents loadable, generation
resolving to two constraints, id 1), both dispatchers return a success
envelope whose violations list is empty, timestamp present and id
preserved — but whose `constraints` field holds the pending Promise of the
un-awaited `generateConstraints` call, not an array of length 2
(`JSON.stringify` renders such a Promise as an empty object). -/
theorem checkConstraints_success_promise :
    McpAdapter.handleMcpRequest envTwoConstraints reqCheck1 =
      { result := some (McpResult.check
          (ConstraintsField.promise (Except.ok [constraintA, constraintB])) [] exNow)
        id := McpId.num 1 } ∧
    McpStdioServer.handleMcpRequest envTwoConstraints reqCheck1 =
      { result := some (McpResult.check
          (ConstraintsField.promise (Except.ok [constraintA, constraintB])) [] exNow)
        id := McpId.num 1 } ∧
    ConstraintsField.isArray
      (ConstraintsField.promise (Except.ok [constraintA, constraintB])) = false :=
  ⟨by rfl, by rfl, rfl⟩

/-- C5: a throwing specification load yields -32001 and a throwing TCC load
yields -32002, each wrapping the cause text with the id preserved — but a
rejecting constraint generation does NOT yield -32003: because the
`generateConstraints` call is not awaited, both dispatchers return a
success envelope carrying the pending Promise of the rejected computation
(the catch mapping generation failures to -32003 is dead code). -/
theorem checkConstraints_dependency_codes :
    McpAdapter.handleMcpRequest envSpecLoadFails reqCheck1 =
      { error := some
          { code := -32001
            message := "Failed to load specification: ENOENT specfile" }
        id := McpId.num 1 } ∧
    McpStdioServer.handleMcpRequest envSpecLoadFails reqCheck1 =
      { error := some
          { code := -32001
            message := "Failed to load specification: ENOENT specfile" }
        id := McpId.num 1 } ∧
    McpAdapter.handleMcpRequest envTccLoadFails reqCheck1 =
      { error := some
          { code := -32002
            message := "Failed to load task context capsule: ENOENT tccfile" }
        id := McpId.num 1 } ∧
    McpStdioServer.handleMcpRequest envTccLoadFails reqCheck1 =
      { error := some
          { code := -32002
            message := "Failed to load task context capsule: ENOENT tccfile" }
        id := McpId.num 1 } ∧
    McpAdapter.handleMcpRequest envGenRejects reqCheck1 =
      { result := some (McpResult.check
          (ConstraintsField.promise (Except.error "boom")) [] exNow)
        id := McpId.num 1 } ∧
    McpStdioServer.handleMcpRequest envGenRejects reqCheck1 =
      { result := some (McpResult.check
          (ConstraintsField.promise (Except.error "boom")) [] exNow)
        id := McpId.num 1 } :=
  ⟨by rfl, by rfl, by rfl, by rfl, by rfl, by rfl⟩

/-- C8: `generateConstraints` returns exactly the matched templates copied
field for field, followed by one synthesized constraint per entry of
`context.relevantConstraints` (category OTHER, severity WARNING, rule a
literal reference string), each sub-list in order and with no
deduplication. -/
theorem generateConstraints_concatenation (store : ConstraintGenerator.TemplateStore)
    (tcc : TaskContextCapsule) :
    ConstraintGenerator.generateConstraints store tcc =
      (ConstraintGenerator.matchTemplates store tcc.taskType).map
        ConstraintGenerator.templateConstraintSpec ++
      tcc.context.relevantConstraints.map
        (ConstraintGenerator.contextConstraintSpec tcc.taskType) := rfl

namespace ConstraintGenerator

theorem scanFiles_all_parse (taskType : String) (files : List TemplateFile)
    (h : files.all (fun f => !jsEndsWith f.name ".json" || f.parse.isOk) = true) :
    ∀ acc, scanFiles taskType acc files =
      acc ++ ((files.filter (fun f => jsEndsWith f.name ".json")).filterMap
        (fun f => f.parse.toOption)).filter (applicableTo taskType) := by
  induction files with
  | nil => intro acc; simp [scanFiles]
  | cons f rest ih =>
    intro acc
    simp only [List.all_cons, Bool.and_eq_true] at h
    obtain ⟨hf, hrest⟩ := h
    by_cases hjson : jsEndsWith f.name ".json"
    · cases hp : f.parse with
      | error e =>
        exfalso
        rw [hjson, hp] at hf
        simp [Except.isOk, Except.toBool] at hf
      | ok template =>
        by_cases happ : taskType ∈ template.applicableTasks ∨ "ALL" ∈ template.applicableTasks
        · simp [scanFiles, hjson, hp, happ, ih hrest, List.filter_cons,
            Except.toOption, applicableTo]
        · simp [scanFiles, hjson, hp, happ, ih hrest, List.filter_cons,
            Except.toOption, applicableTo]
    · simp [scanFiles, hjson, ih hrest, List.filter_cons]

/-- C9: when every `.json` record of the readable partitions parses,
`matchTemplates` returns exactly the applicable templates (those whose
`applicableTasks` contains the task type or "ALL") of the three partitions
in partition order — security, performance, architecture — keeping store
iteration order inside a partition, skipping an unreadable partition
silently, and deduplicating nothing. -/
theorem matchTemplates_partition_order (store : TemplateStore) (taskType : String)
    (h1 : allJsonParse store.security = true)
    (h2 : allJsonParse store.performance = true)
    (h3 : allJsonParse store.architecture = true) :
    matchTemplates store taskType =
      dirTemplatesSpec taskType store.security ++
      dirTemplatesSpec taskType store.performance ++
      dirTemplatesSpec taskType store.architecture := by
  have hdir : ∀ (d : TemplateDir), allJsonParse d = true → ∀ acc,
      scanDir taskType acc d = acc ++ dirTemplatesSpec taskType d := by
    intro d hd acc
    cases d with
    | error e => simp [scanDir, dirTemplatesSpec]
    | ok files =>
      simp only [allJsonParse] at hd
      simp [scanDir, dirTemplatesSpec, scanFiles_all_parse taskType files hd acc]
  rw [matchTemplates, hdir store.architecture h3, hdir store.performance h2,
    hdir store.security h1]
  simp [List.append_assoc]

end ConstraintGenerator

theorem matchTemplates_partition_order_witness :
    ConstraintGenerator.matchTemplates storeEx "API" =
      ConstraintGenerator.dirTemplatesSpec "API" storeEx.security ++
      ConstraintGenerator.dirTemplatesSpec "API" storeEx.performance ++
      ConstraintGenerator.dirTemplatesSpec "API" storeEx.architecture :=
  ConstraintGenerator.matchTemplates_partition_order storeEx "API"
    (by decide) (by decide) (by decide)
